import Mathlib

/-!
Verification of the PIV signing agent (`tools/piv-sign-agent.py`) and the
repo-signing relay (`tools/sign-repo.py`).

Python strings are modelled as `List Char`, Python `bytes` as `List Nat`
(each entry one byte).  External effects (the PKCS#11 library, the PIN
subprocess, the socket peer, `hashlib.sha256`, `base64.b64decode`, the
UTF-8 codec) are modelled as explicit behaviour parameters; everything the
code of the repository itself is what is translated directly from the source.
-/

/-! ## Python primitives -/

/-- ASCII whitespace as recognised by `str.strip()` and `bytes.fromhex`
(the ASCII subset; the claims only exercise ASCII input). -/
def isPySpace (c : Char) : Bool :=
  c == ' ' || c == '\t' || c == '\n' || c == '\r' || c == '\x0b' || c == '\x0c'

/-- Python `str.strip()` (ASCII whitespace). -/
def pyStrip (s : List Char) : List Char :=
  ((s.dropWhile isPySpace).reverse.dropWhile isPySpace).reverse

/-- Value of a hexadecimal digit character, if it is one. -/
def hexVal (c : Char) : Option Nat :=
  let n := c.toNat
  if 48 ≤ n ∧ n ≤ 57 then some (n - 48)
  else if 97 ≤ n ∧ n ≤ 102 then some (n - 87)
  else if 65 ≤ n ∧ n ≤ 70 then some (n - 55)
  else none

/-- Python `bytes.fromhex`: whitespace may separate byte pairs (it is
skipped before each pair), each pair is two immediately adjacent hex
digits; anything else is a `ValueError` (modelled as `none`). -/
def bytesFromhex : List Char → Option (List Nat)
  | [] => some []
  | c :: rest =>
    if isPySpace c then bytesFromhex rest
    else
      match hexVal c with
      | none => none
      | some v1 =>
        match rest with
        | [] => none
        | c2 :: rest2 =>
          match hexVal c2 with
          | none => none
          | some v2 =>
            match bytesFromhex rest2 with
            | none => none
            | some bs => some ((v1 * 16 + v2) :: bs)

/-- Python `str.startswith` on our string model. -/
def startswith (p s : List Char) : Bool :=
  s.take p.length == p

/-- Whether `needle` occurs as a contiguous substring of `hay`. -/
def listContains (needle hay : List Char) : Bool :=
  startswith needle hay ||
    match hay with
    | [] => false
    | _ :: t => listContains needle t

/-- Decimal rendering of a natural number, as Python `str(n)`. -/
def natDec (n : Nat) : List Char := Nat.toDigits 10 n

/-- Decimal rendering of an integer, as Python `str(i)`. -/
def intDec (i : Int) : List Char :=
  if i < 0 then '-' :: Nat.toDigits 10 i.natAbs else Nat.toDigits 10 i.toNat

/-- Python `f"0x\x7brv:x\x7d"`: lowercase hex with a `0x` prefix. -/
def hex0x (n : Nat) : List Char := "0x".toList ++ Nat.toDigits 16 n

/-- The standard base64 alphabet. -/
def b64Char (n : Nat) : Char :=
  "ABCDEFGHIJKLMNOPQRSTUVWXYZabcdefghijklmnopqrstuvwxyz0123456789+/".toList.getD n '?'

/-- Python base64.b64encode on a byte string (entries assumed < 256). -/
def b64encode : List Nat → List Char
  | [] => []
  | [a] => [b64Char (a / 4), b64Char (a % 4 * 16), '=', '=']
  | [a, b] => [b64Char (a / 4), b64Char (a % 4 * 16 + b / 16), b64Char (b % 16 * 4), '=']
  | a :: b :: c :: rest =>
    b64Char (a / 4) :: b64Char (a % 4 * 16 + b / 16) ::
      b64Char (b % 16 * 4 + c / 64) :: b64Char (c % 64) :: b64encode rest

/-- UTF-8 encoding of one character (Python `str.encode()` per char). -/
def utf8EncodeChar (c : Char) : List Nat :=
  let n := c.toNat
  if n < 0x80 then [n]
  else if n < 0x800 then [0xc0 + n / 0x40, 0x80 + n % 0x40]
  else if n < 0x10000 then
    [0xe0 + n / 0x1000, 0x80 + n / 0x40 % 0x40, 0x80 + n % 0x40]
  else
    [0xf0 + n / 0x40000, 0x80 + n / 0x1000 % 0x40, 0x80 + n / 0x40 % 0x40, 0x80 + n % 0x40]

/-- Python `str.encode()` (UTF-8). -/
def utf8Encode (s : List Char) : List Nat := s.flatMap utf8EncodeChar

/-- Python `bytes.hex()`: two lowercase hex digits per byte. -/
def bytesToHex (bs : List Nat) : List Char :=
  bs.flatMap fun b => [Nat.digitChar (b % 256 / 16), Nat.digitChar (b % 16)]

/-- Byte string of an ASCII string literal. -/
def asciiBytes (s : String) : List Nat := s.toList.map Char.toNat

/-- UTF-8 decoding restricted to ASCII bytes: a faithful instantiation of
Python `bytes.decode("utf-8", errors="replace")` on inputs whose bytes are
all below 128 (the only inputs the claims exercise). -/
def decodeAscii (bs : List Nat) : List Char := bs.map Char.ofNat

/-- Python data.split at the first newline: the bytes before the first newline byte. -/
def takeUntilNL : List Nat → List Nat
  | [] => []
  | b :: rest => if b = 10 then [] else b :: takeUntilNL rest

/-! ## Token Session: `pkcs11_sign` (piv-sign-agent.py lines 107-197)

The PKCS#11 library is external; its replies are a `Pkcs11Behavior`
value.  `pkcs11_sign` additionally returns the trace of library calls it
made, so that the cleanup claims are statable.  The cleanup calls
`C_Logout` / `C_CloseSession` / `C_Finalize` have their return values
discarded by the source (a ctypes call never raises on a nonzero return),
which is the best-effort cleanup the spec describes. -/

/-- DER-encoded DigestInfo prefix for SHA-256 (19 bytes), from the source
constant `SHA256_DER_PREFIX`. -/
def sha256DerHeader : List Nat :=
  [0x30, 0x31, 0x30, 0x0d, 0x06, 0x09, 0x60, 0x86,
   0x48, 0x01, 0x65, 0x03, 0x04, 0x02, 0x01, 0x05,
   0x00, 0x04, 0x20]

/-- The replies of the PKCS#11 library during one `pkcs11_sign` call. -/
structure Pkcs11Behavior where
  initRv : Nat
  slotCount : Nat
  openRv : Nat
  loginRv : Nat
  findInitRv : Nat
  foundCount : Nat
  signInitRv : Nat
  signRv : Nat
  signature : List Nat
deriving DecidableEq

/-- The PKCS#11 calls `pkcs11_sign` can make, in trace order. -/
inductive TokenEvent where
  | evInit
  | evGetSlotList
  | evOpenSession
  | evLogin
  | evFindKey
  | evSignInit
  | evSign
  | evLogout
  | evCloseSession
  | evFinalize
deriving DecidableEq

def msgInitFail (b : Pkcs11Behavior) : List Char :=
  "C_Initialize failed: ".toList ++ hex0x b.initRv

def msgOpenFail (b : Pkcs11Behavior) : List Char :=
  "C_OpenSession failed: ".toList ++ hex0x b.openRv

def msgLoginFail (b : Pkcs11Behavior) : List Char :=
  "C_Login failed: ".toList ++ hex0x b.loginRv ++ " (wrong PIN?)".toList

def msgFindInitFail (b : Pkcs11Behavior) : List Char :=
  "C_FindObjectsInit failed: ".toList ++ hex0x b.findInitRv

def msgDigestInfo (digest : List Nat) : List Char :=
  "bad DigestInfo length: ".toList ++ natDec (sha256DerHeader ++ digest).length

def msgSignInitFail (b : Pkcs11Behavior) : List Char :=
  "C_SignInit failed: ".toList ++ hex0x b.signInitRv

def msgSignFail (b : Pkcs11Behavior) : List Char :=
  "C_Sign failed: ".toList ++ hex0x b.signRv

/-- Source lines 143-192: the inner `try` body of `pkcs11_sign` (login
through sign), run while the session is open.  The `pin` argument is only
handed to `C_Login`; no message is built from it. -/
def pkcs11Session (b : Pkcs11Behavior) (pin : List Char) (digest : List Nat) :
    Except (List Char) (List Nat) × List TokenEvent :=
  let _ := utf8Encode pin   -- pin.encode(), passed to C_Login
  if b.loginRv ≠ 0 then
    (.error (msgLoginFail b), [.evLogin])
  else if b.findInitRv ≠ 0 then
    (.error (msgFindInitFail b), [.evLogin, .evFindKey])
  else if b.foundCount = 0 then
    (.error "no signing key found in PIV slot".toList, [.evLogin, .evFindKey])
  else if (sha256DerHeader ++ digest).length ≠ 51 then
    (.error (msgDigestInfo digest), [.evLogin, .evFindKey])
  else if b.signInitRv ≠ 0 then
    (.error (msgSignInitFail b), [.evLogin, .evFindKey, .evSignInit])
  else if b.signRv ≠ 0 then
    (.error (msgSignFail b), [.evLogin, .evFindKey, .evSignInit, .evSign])
  else
    (.ok b.signature, [.evLogin, .evFindKey, .evSignInit, .evSign])

/-- Source lines 125-195: the outer `try` body (slot discovery, session
open, then the inner body with its unconditional logout/close `finally`). -/
def pkcs11Body (b : Pkcs11Behavior) (pin : List Char) (digest : List Nat) :
    Except (List Char) (List Nat) × List TokenEvent :=
  if b.slotCount = 0 then
    (.error "no YubiKey detected".toList, [.evGetSlotList])
  else if b.openRv ≠ 0 then
    (.error (msgOpenFail b), [.evGetSlotList, .evOpenSession])
  else
    let (res, evs) := pkcs11Session b pin digest
    (res, [.evGetSlotList, .evOpenSession] ++ evs ++ [.evLogout, .evCloseSession])

/-- Source lines 107-197, `pkcs11_sign`: the C_Initialize check happens
before the outer `try`, so a failing C_Initialize raises without reaching
the `finally` that calls C_Finalize. -/
def pkcs11_sign (b : Pkcs11Behavior) (pin : List Char) (digest : List Nat) :
    Except (List Char) (List Nat) × List TokenEvent :=
  if b.initRv ≠ 0 then
    (.error (msgInitFail b), [.evInit])
  else
    let (res, evs) := pkcs11Body b pin digest
    (res, .evInit :: evs ++ [.evFinalize])

/-! ## PIN Resolver: `get_pin` (piv-sign-agent.py lines 224-258) -/

/-- Result of `subprocess.run(cmd, shell=True, capture_output=True,
text=True, timeout=30)`: either the completed process or a
`TimeoutExpired` after the 30-second bound. -/
structure CmdResult where
  returncode : Int
  stdout : List Char
  stderr : List Char

inductive CmdOutcome where
  | completed (r : CmdResult)
  | timedOut

/-- Side effects `get_pin` can perform, in order. -/
inductive PinStep where
  | ranCommand (cmd : List Char)
  | prompted
deriving DecidableEq

/-- The external inputs of `get_pin`: the two environment variables, the
behaviour of the shell subprocess, and the interactive `getpass` prompt
(`none` models the `EOFError` of a non-interactive stdin). -/
structure PinEnv where
  envPivPin : Option (List Char)
  envPinCommand : Option (List Char)
  runCommand : List Char → CmdOutcome
  promptResult : Option (List Char)

/-- Python truthiness of an optional string: present and non-empty. -/
def strTruthy : Option (List Char) → Option (List Char)
  | some s => if s = [] then none else some s
  | none => none

def msgPinCmdFail (r : CmdResult) : List Char :=
  "pin command failed (exit ".toList ++ intDec r.returncode ++ "): ".toList
    ++ pyStrip r.stderr

def msgPinUnavailable : List Char :=
  "PIV PIN not available. Set PIV_PIN, use --pin-command, or run interactively.".toList

/-- Source lines 224-258, get_pin: PIV_PIN env var, else the configured command
(argument before PIV_PIN_COMMAND), else the interactive prompt.  Returns
the resolved PIN or the raised `RuntimeError` message, with the trace of
side effects performed. -/
def get_pin (env : PinEnv) (pin_command : Option (List Char)) :
    Except (List Char) (List Char) × List PinStep :=
  match strTruthy env.envPivPin with
  | some pin => (.ok pin, [])
  | none =>
    match (match strTruthy pin_command with
           | some c => some c
           | none => strTruthy env.envPinCommand) with
    | some cmd =>
      match env.runCommand cmd with
      | .completed r =>
        if r.returncode = 0 ∧ pyStrip r.stdout ≠ [] then
          (.ok (pyStrip r.stdout), [.ranCommand cmd])
        else
          (.error (msgPinCmdFail r), [.ranCommand cmd])
      | .timedOut => (.error "pin command timed out".toList, [.ranCommand cmd])
    | none =>
      match env.promptResult with
      | some p => (.ok p, [.prompted])
      | none => (.error msgPinUnavailable, [.prompted])

/-! ## Signing Service: `PIVSignAgent` (piv-sign-agent.py lines 285-366) -/

/-- The state and external collaborators of one `PIVSignAgent`. -/
structure AgentEnv where
  pubkey_pem : List Nat
  pinEnv : PinEnv
  pin_command : Option (List Char)
  token : Pkcs11Behavior

/-- The field pubkey_b64, computed once in init. -/
def pubkeyB64 (env : AgentEnv) : List Char := b64encode env.pubkey_pem

/-- Observable side effects of request handling: a call to `get_pin` and a
call to `pkcs11_sign`. -/
inductive Effect where
  | pinLookup
  | tokenSign
deriving DecidableEq

/-- Source lines 298-326, PIVSignAgent.handle_sign: hex decode, length check,
PIN fetch, one-shot sign.  Returns the response string and the effect
trace. -/
def handle_sign (env : AgentEnv) (hex_digest : List Char) :
    List Char × List Effect :=
  match bytesFromhex hex_digest with
  | none => ("ERR invalid hex digest".toList, [])
  | some digest =>
    if digest.length ≠ 32 then
      ("ERR digest must be 32 bytes, got ".toList ++ natDec digest.length, [])
    else
      match (get_pin env.pinEnv env.pin_command).1 with
      | .error e => ("ERR ".toList ++ e, [.pinLookup])
      | .ok pin =>
        match (pkcs11_sign env.token pin digest).1 with
        | .error e => ("ERR ".toList ++ e, [.pinLookup, .tokenSign])
        | .ok sig => ("OK ".toList ++ b64encode sig, [.pinLookup, .tokenSign])

/-- Source lines 328-341, PIVSignAgent.handle_request: strip the line, then
dispatch on `PUBKEY` / `SIGN SHA256 ` / anything else. -/
def handle_request (env : AgentEnv) (line : List Char) :
    List Char × List Effect :=
  let l := pyStrip line
  if l = [] then ("ERR empty request".toList, [])
  else if l = "PUBKEY".toList then ("OK ".toList ++ pubkeyB64 env, [])
  else if startswith "SIGN SHA256 ".toList l then
    handle_sign env (l.drop "SIGN SHA256 ".length)
  else ("ERR unknown command".toList, [])

/-- Outcome of the `while b"\n" not in data` receive loop of
`handle_connection`. -/
inductive RecvOutcome where
  | tooLarge
  | gotData (data : List Nat)
deriving DecidableEq

/-- The receive loop (lines 346-354): newline test at the top, one
`recv` per iteration (an exhausted or empty chunk list models EOF), size
test immediately after appending each chunk. -/
def connRecvLoop : List (List Nat) → List Nat → RecvOutcome
  | [], data => .gotData data
  | c :: rest, data =>
    if 10 ∈ data then .gotData data
    else if c = [] then .gotData data
    else if (data ++ c).length > 8192 then .tooLarge
    else connRecvLoop rest (data ++ c)

/-- Source lines 343-366, PIVSignAgent.handle_connection, for one client whose
`recv` results are `chunks`; `decode` is the external UTF-8 lossy codec
(`decodeAscii` instantiates it faithfully on ASCII input).  Returns the
list of `sendall` payloads (as strings) and the request-handling effects. -/
def handle_connection (env : AgentEnv) (decode : List Nat → List Char)
    (chunks : List (List Nat)) : List (List Char) × List Effect :=
  match connRecvLoop chunks [] with
  | .tooLarge => (["ERR request too large\n".toList], [])
  | .gotData data =>
    if data = [] then ([], [])
    else
      let line := decode (takeUntilNL data)
      let (response, effs) := handle_request env line
      ([response ++ "\n".toList], effs)

/-! ## Relay: `sign-repo.py`

`die(msg)` writes one line `ERROR: <msg>` to standard error and exits 1.
The external collaborators (`hashlib.sha256().digest()`,
`base64.b64decode`, the strict response-byte decode, the agent socket)
are behaviour parameters.  `base64.b64decode` (source lines 98 and 118)
and the strict `bytes.decode()` (source line 73, outside the
`except socket.error` block) can raise; a raise there is an *uncaught*
exception that terminates the interpreter with a multi-line traceback on
standard error and a non-zero exit, before anything is written to
standard output — modelled by the `crashed` outcome below. -/

/-- The socket-level reply of the agent to one request: a raised
`socket.error` somewhere in the connect/send/recv block, or the list of
`recv` results. -/
inductive AgentReply where
  | sockErr (emsg : List Char)
  | chunks (cs : List (List Nat))

structure RelayEnv where
  sock_path : List Char
  agent : List Char → AgentReply
  decodeBytes : List Nat → Option (List Char)
  b64dec : List Char → Option (List Nat)
  hashFn : List Nat → List Nat
  stdinLine : List Char
  repoPubFile : Option (List Nat)
  localPubFile : Option (List Nat)

/-- Result of one relay step: a value, a `die` with its one diagnostic
line, or an uncaught exception (`binascii.Error` from `b64decode`,
`UnicodeDecodeError` from the strict decode). -/
inductive RelayRes (α : Type) where
  | ok (a : α)
  | died (msg : List Char)
  | crashed
deriving DecidableEq

/-- The receive loop of the relay (sign-repo.py lines 63-68): newline test at
the top, one `recv` per iteration, stop on EOF, no size cap. -/
def recvUntilNL : List (List Nat) → List Nat → List Nat
  | [], data => data
  | c :: rest, data =>
    if 10 ∈ data then data
    else if c = [] then data
    else recvUntilNL rest (data ++ c)

/-- Source lines 55-79, agent_request: one round trip; `OK ` yields the
payload, `ERR ` and anything else `die`; an undecodable response line
(line 73 is strict UTF-8, outside the socket.error handler) raises. -/
def agent_request (env : RelayEnv) (request : List Char) :
    RelayRes (List Char) :=
  match env.agent request with
  | .sockErr e =>
    .died ("cannot connect to PIV agent at ".toList ++ env.sock_path
      ++ ": ".toList ++ e)
  | .chunks cs =>
    match env.decodeBytes (takeUntilNL (recvUntilNL cs [])) with
    | none => .crashed
    | some line =>
      if startswith "OK ".toList line then .ok (line.drop 3)
      else if startswith "ERR ".toList line then
        .died ("agent error: ".toList ++ line.drop 4)
      else .died ("unexpected agent response: ".toList ++ line)

/-- Source lines 82-98, find_repo_pub: REPO_PUB file, else the colocated
`repo.pub`, else a `PUBKEY` query whose payload is base64-decoded (line
98, may raise); also returns the requests issued. -/
def find_repo_pub (env : RelayEnv) :
    RelayRes (List Nat) × List (List Char) :=
  match env.repoPubFile with
  | some content => (.ok content, [])
  | none =>
    match env.localPubFile with
    | some content => (.ok content, [])
    | none =>
      match agent_request env "PUBKEY".toList with
      | .died e => (.died e, ["PUBKEY".toList])
      | .crashed => (.crashed, ["PUBKEY".toList])
      | .ok b64 =>
        match env.b64dec b64 with
        | some bs => (.ok bs, ["PUBKEY".toList])
        | none => (.crashed, ["PUBKEY".toList])

/-- Observable outcome of a relay run that called `sys.exit`. -/
structure ProgResult where
  stdout : List Nat
  stderrLines : List (List Char)
  exitCode : Nat
deriving DecidableEq

/-- Outcome of one relay invocation: a normal exit with its observables,
or termination by an uncaught exception.  `crashed` records the bytes
written to standard output before the raise (always none: every raise
site precedes the stdout writes at lines 121-126); the interpreter then
prints a multi-line traceback to standard error and exits non-zero. -/
inductive RelayOutcome where
  | exited (r : ProgResult)
  | crashed (stdout : List Nat)
deriving DecidableEq

/-- Source lines 101-126, the main of sign-repo.py, returning the program
outcome and the requests sent to the agent.  Success writes the four-part
`SIGNATURE` / sig / `CERT` / PEM / `END` structure to stdout; every `die`
writes a single `ERROR: <msg>` diagnostic line and exits 1; a raising
`b64decode` (line 118) or response decode terminates the run with nothing
on stdout. -/
def sign_repo_main (env : RelayEnv) : RelayOutcome × List (List Char) :=
  let (pubRes, log) := find_repo_pub env
  match pubRes with
  | .died m =>
    (.exited { stdout := [], stderrLines := ["ERROR: ".toList ++ m], exitCode := 1 },
     log)
  | .crashed => (.crashed [], log)
  | .ok pub_pem =>
    let hex_hash := pyStrip env.stdinLine
    if hex_hash = [] then
      (.exited
        { stdout := [],
          stderrLines := ["ERROR: no hash received on stdin".toList],
          exitCode := 1 }, log)
    else
      let double_hash := env.hashFn (utf8Encode hex_hash)
      let request := "SIGN SHA256 ".toList ++ bytesToHex double_hash
      match agent_request env request with
      | .died m =>
        (.exited
          { stdout := [], stderrLines := ["ERROR: ".toList ++ m],
            exitCode := 1 }, log ++ [request])
      | .crashed => (.crashed [], log ++ [request])
      | .ok sig_b64 =>
        match env.b64dec sig_b64 with
        | none => (.crashed [], log ++ [request])
        | some sig =>
          (.exited
            { stdout := asciiBytes "SIGNATURE\n" ++ sig
                ++ asciiBytes "\nCERT\n" ++ pub_pem ++ asciiBytes "END\n",
              stderrLines := [], exitCode := 0 }, log ++ [request])

/-! ## Spec-side definitions (for the refinement-style claims) -/

/-- Modelled from the spec: the exact wire grammar of a request line,
`"PUBKEY" | "SIGN SHA256 " hex64` with `hex64` exactly 64 hexadecimal
characters — no surrounding whitespace, no whitespace inside the hex
field. -/
def specRequestGrammar (l : List Char) : Bool :=
  l == "PUBKEY".toList ||
    (startswith "SIGN SHA256 ".toList l &&
      (l.drop 12).length == 64 &&
      (l.drop 12).all fun c => (hexVal c).isSome)

/-- The complete set of error messages `pkcs11_sign` can produce, a
function of the token behaviour and the digest only — the PIN is not
among its inputs. -/
def tokenErrorMsgs (b : Pkcs11Behavior) (digest : List Nat) : List (List Char) :=
  [msgInitFail b, "no YubiKey detected".toList, msgOpenFail b, msgLoginFail b,
   msgFindInitFail b, "no signing key found in PIV slot".toList,
   msgDigestInfo digest, msgSignInitFail b, msgSignFail b]

/-! ## Helper lemmas -/

theorem startswith_append_self (p t : List Char) : startswith p (p ++ t) = true := by
  simp [startswith, List.take_left]

theorem sign_pre_len : "SIGN SHA256 ".length = 12 := rfl

/-- If no newline byte occurs, `data.split` keeps all of it. -/
theorem takeUntilNL_eq_self (l : List Nat) (h : (10 : Nat) ∉ l) : takeUntilNL l = l := by
  induction l with
  | nil => rfl
  | cons b rest ih =>
    simp only [List.mem_cons, not_or] at h
    simp [takeUntilNL, Ne.symm h.1, ih h.2]

/-! ## C1: Token Session cleanup -/

/-- A behaviour whose `C_Initialize` fails. -/
def bInitFail : Pkcs11Behavior :=
  { initRv := 1, slotCount := 0, openRv := 0, loginRv := 0, findInitRv := 0,
    foundCount := 0, signInitRv := 0, signRv := 0, signature := [] }

/-- C1, counterexample: when `C_Initialize` itself fails, `pkcs11_sign`
raises before entering the `try` whose `finally` calls `C_Finalize`, so
the token interface is *not* finalized on that path — refuting "the token
interface is finalized on every path". -/
theorem pkcs11_sign_init_failure_skips_finalize :
    (pkcs11_sign bInitFail [] []).2 = [TokenEvent.evInit] ∧
    TokenEvent.evFinalize ∉ (pkcs11_sign bInitFail [] []).2 := by
  decide

/-- C1 (amended): on every execution of `pkcs11_sign` in which
`C_Initialize` succeeded, the interface is finalized; if additionally a
session was opened, logout and session close are both performed (and are
absent when no session was opened); and cleanup does not disturb the
primary error — e.g. a login failure is reported as the login error even
though logout/close/finalize all ran. -/
theorem pkcs11_sign_cleanup_runs (b : Pkcs11Behavior) (pin : List Char)
    (digest : List Nat) :
    (b.initRv = 0 → TokenEvent.evFinalize ∈ (pkcs11_sign b pin digest).2)
    ∧ (b.initRv = 0 → b.slotCount ≠ 0 → b.openRv = 0 →
        TokenEvent.evLogout ∈ (pkcs11_sign b pin digest).2 ∧
        TokenEvent.evCloseSession ∈ (pkcs11_sign b pin digest).2)
    ∧ (b.initRv = 0 → (b.slotCount = 0 ∨ b.openRv ≠ 0) →
        TokenEvent.evLogout ∉ (pkcs11_sign b pin digest).2 ∧
        TokenEvent.evCloseSession ∉ (pkcs11_sign b pin digest).2)
    ∧ (b.initRv = 0 → b.slotCount ≠ 0 → b.openRv = 0 → b.loginRv ≠ 0 →
        (pkcs11_sign b pin digest).1 = .error (msgLoginFail b) ∧
        TokenEvent.evLogout ∈ (pkcs11_sign b pin digest).2 ∧
        TokenEvent.evCloseSession ∈ (pkcs11_sign b pin digest).2 ∧
        TokenEvent.evFinalize ∈ (pkcs11_sign b pin digest).2) := by
  refine ⟨fun h0 => ?_, fun h0 h1 h2 => ?_, fun h0 h1 => ?_, fun h0 h1 h2 h3 => ?_⟩
  · simp [pkcs11_sign, h0]
  · simp [pkcs11_sign, pkcs11Body, h0, h1, h2]
  · rcases h1 with h1 | h1
    · simp [pkcs11_sign, pkcs11Body, h0, h1]
    · by_cases hs : b.slotCount = 0 <;> simp [pkcs11_sign, pkcs11Body, h0, h1, hs]
  · simp [pkcs11_sign, pkcs11Body, pkcs11Session, h0, h1, h2, h3]

/-- C1 witness: a concrete login-failure run in which logout, close and
finalize all appear in the trace and the login error is the one
reported. -/
def bLoginFail : Pkcs11Behavior :=
  { initRv := 0, slotCount := 1, openRv := 0, loginRv := 7, findInitRv := 0,
    foundCount := 1, signInitRv := 0, signRv := 0, signature := [] }

theorem pkcs11_sign_cleanup_runs_witness :
    (pkcs11_sign bLoginFail [] []).1 = .error (msgLoginFail bLoginFail) ∧
    TokenEvent.evLogout ∈ (pkcs11_sign bLoginFail [] []).2 ∧
    TokenEvent.evCloseSession ∈ (pkcs11_sign bLoginFail [] []).2 ∧
    TokenEvent.evFinalize ∈ (pkcs11_sign bLoginFail [] []).2 :=
  (pkcs11_sign_cleanup_runs bLoginFail [] []).2.2.2 rfl (by decide) rfl (by decide)

/-! ## Shared sample environment for concrete runs -/

/-- A `PinEnv` with no PIN source configured. -/
def pinEnvNone : PinEnv :=
  { envPivPin := none, envPinCommand := none,
    runCommand := fun _ => .timedOut, promptResult := none }

/-- A token behaviour on which every call succeeds. -/
def tokOk : Pkcs11Behavior :=
  { initRv := 0, slotCount := 1, openRv := 0, loginRv := 0, findInitRv := 0,
    foundCount := 1, signInitRv := 0, signRv := 0,
    signature := List.replicate 256 170 }

/-- A sample agent with a 3-byte public key and no PIN source. -/
def envSample : AgentEnv :=
  { pubkey_pem := [1, 2, 3], pinEnv := pinEnvNone, pin_command := none,
    token := tokOk }

/-! ## C2: malformed digests are rejected before PIN resolution -/

/-- C2: a `SIGN SHA256 <hex>` whose hex field fails to decode, or decodes
to a byte string whose length is not 32, yields an `ERR` response with no
call to `get_pin` and no call to `pkcs11_sign` (the effect trace is
empty). -/
theorem handle_sign_rejects_malformed_digest (env : AgentEnv)
    (hex_digest : List Char)
    (h : bytesFromhex hex_digest = none ∨
         ∃ bs, bytesFromhex hex_digest = some bs ∧ bs.length ≠ 32) :
    startswith "ERR ".toList (handle_sign env hex_digest).1 = true ∧
    (handle_sign env hex_digest).2 = [] := by
  rcases h with h | ⟨bs, hbs, hlen⟩
  · rw [show handle_sign env hex_digest = ("ERR invalid hex digest".toList, []) from by
      simp [handle_sign, h]]
    exact ⟨rfl, rfl⟩
  · rw [show handle_sign env hex_digest
        = ("ERR digest must be 32 bytes, got ".toList ++ natDec bs.length, []) from by
      simp [handle_sign, hbs, hlen]]
    exact ⟨startswith_append_self "ERR ".toList
      ("digest must be 32 bytes, got ".toList ++ natDec bs.length), rfl⟩

/-- C2 witness: the non-hex field `zz` is rejected with `ERR` and an
empty effect trace. -/
theorem handle_sign_rejects_malformed_digest_witness :
    (bytesFromhex "zz".toList = none ∨
      ∃ bs, bytesFromhex "zz".toList = some bs ∧ bs.length ≠ 32) ∧
    startswith "ERR ".toList (handle_sign envSample "zz".toList).1 = true ∧
    (handle_sign envSample "zz".toList).2 = [] :=
  ⟨Or.inl rfl, handle_sign_rejects_malformed_digest envSample "zz".toList (Or.inl rfl)⟩

/-! ## C3: PIN resolution order -/

/-- C3: `get_pin` tries its sources strictly in order.  (1) A truthy
`PIV_PIN` is returned verbatim with an empty effect trace, so the command
is never executed; (2) a truthy explicit argument takes priority over
`PIV_PIN_COMMAND` as the command that runs; (3) a completed command with
exit code 0 and non-empty trimmed stdout yields exactly that trimmed
stdout; (4) otherwise the completed command fails resolution with the
exit code and stderr attached and no prompt is attempted; (5) a timeout
fails resolution with the timeout message and no prompt is attempted. -/
theorem get_pin_resolution_order (env : PinEnv) (pin_command : Option (List Char)) :
    (∀ p, strTruthy env.envPivPin = some p → get_pin env pin_command = (.ok p, []))
    ∧ (∀ c, strTruthy env.envPivPin = none → strTruthy pin_command = some c →
        (get_pin env pin_command).2 = [.ranCommand c])
    ∧ (∀ c r, strTruthy env.envPivPin = none →
        (strTruthy pin_command = some c ∨
          (strTruthy pin_command = none ∧ strTruthy env.envPinCommand = some c)) →
        env.runCommand c = .completed r →
        ((r.returncode = 0 ∧ pyStrip r.stdout ≠ [] →
            (get_pin env pin_command).1 = .ok (pyStrip r.stdout))
         ∧ (¬(r.returncode = 0 ∧ pyStrip r.stdout ≠ []) →
            (get_pin env pin_command).1 = .error (msgPinCmdFail r) ∧
            PinStep.prompted ∉ (get_pin env pin_command).2)))
    ∧ (∀ c, strTruthy env.envPivPin = none →
        (strTruthy pin_command = some c ∨
          (strTruthy pin_command = none ∧ strTruthy env.envPinCommand = some c)) →
        env.runCommand c = .timedOut →
        (get_pin env pin_command).1 = .error "pin command timed out".toList ∧
        PinStep.prompted ∉ (get_pin env pin_command).2) := by
  refine ⟨fun p hp => ?_, fun c h0 hc => ?_, fun c r h0 hc hr => ?_, fun c h0 hc hr => ?_⟩
  · simp [get_pin, hp]
  · rcases hrun : env.runCommand c with r | _
    · by_cases hok : r.returncode = 0 ∧ pyStrip r.stdout ≠ [] <;>
        simp [get_pin, h0, hc, hrun, hok]
    · simp [get_pin, h0, hc, hrun]
  · have hcmd : (match strTruthy pin_command with
        | some c => some c
        | none => strTruthy env.envPinCommand) = some c := by
      rcases hc with hc | ⟨hc1, hc2⟩
      · simp [hc]
      · simp [hc1, hc2]
    constructor
    · intro hok
      simp [get_pin, h0, hcmd, hr, hok]
    · intro hbad
      simp [get_pin, h0, hcmd, hr, hbad]
  · have hcmd : (match strTruthy pin_command with
        | some c => some c
        | none => strTruthy env.envPinCommand) = some c := by
      rcases hc with hc | ⟨hc1, hc2⟩
      · simp [hc]
      · simp [hc1, hc2]
    simp [get_pin, h0, hcmd, hr]

/-- PIN environment with only `PIV_PIN` set. -/
def pinEnvOverride : PinEnv :=
  { envPivPin := some "1234".toList, envPinCommand := some "getpin.sh".toList,
    runCommand := fun _ => .completed { returncode := 0, stdout := "9999".toList, stderr := [] },
    promptResult := some "0000".toList }

/-- Result of a failing PIN command (exit 1). -/
def cmdFail : CmdResult := { returncode := 1, stdout := [], stderr := "boom".toList }

/-- PIN environment with only a command configured, which exits 1. -/
def pinEnvCmdFail : PinEnv :=
  { envPivPin := none, envPinCommand := some "getpin.sh".toList,
    runCommand := fun _ => .completed cmdFail, promptResult := some "0000".toList }

/-- C3 witness: with the override set the override wins with no side
effect; with only a failing command configured, resolution fails with the
command diagnostics and the prompt is never reached. -/
theorem get_pin_resolution_order_witness :
    get_pin pinEnvOverride none = (.ok "1234".toList, []) ∧
    (get_pin pinEnvCmdFail none).1 = .error (msgPinCmdFail cmdFail) ∧
    PinStep.prompted ∉ (get_pin pinEnvCmdFail none).2 :=
  ⟨(get_pin_resolution_order pinEnvOverride none).1 "1234".toList rfl,
   ((get_pin_resolution_order pinEnvCmdFail none).2.2.1 "getpin.sh".toList cmdFail
      rfl (Or.inr ⟨rfl, rfl⟩) rfl).2 (by decide)⟩


/-! ## C4, C5: relay behaviour -/

/-- The only request `find_repo_pub` can issue is `PUBKEY`. -/
theorem find_repo_pub_log (env : RelayEnv) :
    (find_repo_pub env).2 = [] ∨ (find_repo_pub env).2 = ["PUBKEY".toList] := by
  unfold find_repo_pub
  rcases env.repoPubFile with _ | c
  · rcases env.localPubFile with _ | c2
    · rcases agent_request env "PUBKEY".toList with b64 | e | _
      · rcases hb : env.b64dec b64 with _ | bs <;> simp [hb]
      · simp
      · simp
    · simp
  · simp

/-- Reduction of `sign_repo_main` when the public key lookup dies. -/
theorem sign_repo_main_pub_died (env : RelayEnv) (m : List Char) (log : List (List Char))
    (hfp : find_repo_pub env = (.died m, log)) :
    sign_repo_main env =
      (.exited { stdout := [], stderrLines := ["ERROR: ".toList ++ m], exitCode := 1 },
       log) := by
  unfold sign_repo_main
  rw [hfp]

/-- Reduction of `sign_repo_main` when the public key lookup raises. -/
theorem sign_repo_main_pub_crashed (env : RelayEnv) (log : List (List Char))
    (hfp : find_repo_pub env = (.crashed, log)) :
    sign_repo_main env = (.crashed [], log) := by
  unfold sign_repo_main
  rw [hfp]

/-- Reduction of `sign_repo_main` when stdin strips to the empty string. -/
theorem sign_repo_main_no_hash (env : RelayEnv) (pub : List Nat) (log : List (List Char))
    (hfp : find_repo_pub env = (.ok pub, log))
    (hh : pyStrip env.stdinLine = []) :
    sign_repo_main env =
      (.exited
        { stdout := [], stderrLines := ["ERROR: no hash received on stdin".toList],
          exitCode := 1 }, log) := by
  unfold sign_repo_main
  rw [hfp]
  dsimp only
  rw [if_pos hh]

/-- Reduction of `sign_repo_main` to the signing round trip. -/
theorem sign_repo_main_sign_branch (env : RelayEnv) (pub : List Nat) (log : List (List Char))
    (hfp : find_repo_pub env = (.ok pub, log))
    (hh : ¬pyStrip env.stdinLine = []) :
    sign_repo_main env =
      (match agent_request env ("SIGN SHA256 ".toList ++
          bytesToHex (env.hashFn (utf8Encode (pyStrip env.stdinLine)))) with
       | .died m =>
         (.exited { stdout := [], stderrLines := ["ERROR: ".toList ++ m], exitCode := 1 },
          log ++ ["SIGN SHA256 ".toList ++
            bytesToHex (env.hashFn (utf8Encode (pyStrip env.stdinLine)))])
       | .crashed =>
         (.crashed [], log ++ ["SIGN SHA256 ".toList ++
            bytesToHex (env.hashFn (utf8Encode (pyStrip env.stdinLine)))])
       | .ok sig_b64 =>
         match env.b64dec sig_b64 with
         | none =>
           (.crashed [], log ++ ["SIGN SHA256 ".toList ++
              bytesToHex (env.hashFn (utf8Encode (pyStrip env.stdinLine)))])
         | some sig =>
           (.exited
             { stdout := asciiBytes "SIGNATURE\n" ++ sig
                 ++ asciiBytes "\nCERT\n" ++ pub ++ asciiBytes "END\n",
               stderrLines := [], exitCode := 0 },
            log ++ ["SIGN SHA256 ".toList ++
              bytesToHex (env.hashFn (utf8Encode (pyStrip env.stdinLine)))])) := by
  unfold sign_repo_main
  rw [hfp]
  dsimp only
  rw [if_neg hh]

/-- C4: every `SIGN SHA256` request the relay sends carries the hash of
the literal stripped stdin text (its UTF-8 bytes), so for stdin line
`deadbeef` the digest is the hash of the eight ASCII characters
`deadbeef` — whose byte string differs from the hex-decoded bytes
`de ad be ef`. -/
theorem sign_repo_hashes_literal_hex_text (env : RelayEnv) :
    (∀ r, r ∈ (sign_repo_main env).2 →
      startswith "SIGN SHA256 ".toList r = true →
      r = "SIGN SHA256 ".toList ++
        bytesToHex (env.hashFn (utf8Encode (pyStrip env.stdinLine))))
    ∧ (pyStrip env.stdinLine = "deadbeef".toList →
        ∀ r, r ∈ (sign_repo_main env).2 →
          startswith "SIGN SHA256 ".toList r = true →
          r = "SIGN SHA256 ".toList ++
            bytesToHex (env.hashFn [100, 101, 97, 100, 98, 101, 101, 102]))
    ∧ utf8Encode "deadbeef".toList = [100, 101, 97, 100, 98, 101, 101, 102]
    ∧ bytesFromhex "deadbeef".toList = some [222, 173, 190, 239] := by
  have hgen : ∀ r, r ∈ (sign_repo_main env).2 →
      startswith "SIGN SHA256 ".toList r = true →
      r = "SIGN SHA256 ".toList ++
        bytesToHex (env.hashFn (utf8Encode (pyStrip env.stdinLine))) := by
    intro r hr hsw
    rcases hfp : find_repo_pub env with ⟨pubRes, log⟩
    have hlogmem : ∀ s, s ∈ log → s = "PUBKEY".toList := by
      intro s hs
      rcases find_repo_pub_log env with h | h <;> rw [hfp] at h <;> simp at h
      · rw [h] at hs
        cases hs
      · rw [h] at hs
        simpa using hs
    cases pubRes with
    | died m =>
      rw [sign_repo_main_pub_died env m log hfp] at hr
      rw [hlogmem r hr] at hsw
      exact absurd hsw (by decide)
    | crashed =>
      rw [sign_repo_main_pub_crashed env log hfp] at hr
      rw [hlogmem r hr] at hsw
      exact absurd hsw (by decide)
    | ok pub =>
      by_cases hh : pyStrip env.stdinLine = []
      · rw [sign_repo_main_no_hash env pub log hfp hh] at hr
        rw [hlogmem r hr] at hsw
        exact absurd hsw (by decide)
      · rw [sign_repo_main_sign_branch env pub log hfp hh] at hr
        have hmem : r ∈ log ++ ["SIGN SHA256 ".toList ++
            bytesToHex (env.hashFn (utf8Encode (pyStrip env.stdinLine)))] := by
          cases hor : agent_request env ("SIGN SHA256 ".toList ++
              bytesToHex (env.hashFn (utf8Encode (pyStrip env.stdinLine)))) with
          | ok sig_b64 =>
            rw [hor] at hr
            dsimp only at hr
            cases hb : env.b64dec sig_b64 with
            | none =>
              rw [hb] at hr
              exact hr
            | some sig =>
              rw [hb] at hr
              exact hr
          | died m =>
            rw [hor] at hr
            exact hr
          | crashed =>
            rw [hor] at hr
            exact hr
        rcases List.mem_append.mp hmem with hm | hm
        · rw [hlogmem r hm] at hsw
          exact absurd hsw (by decide)
        · simpa using hm
  refine ⟨hgen, fun hdb r hr hsw => ?_, rfl, rfl⟩
  have hx := hgen r hr hsw
  rw [hdb] at hx
  exact hx

/-- C5, counterexample: an agent that answers the signing request with
`OK ab` drives the relay into `base64.b64decode("ab")`, which raises
`binascii.Error` (incorrect padding); the run terminates with nothing on
stdout and a multi-line interpreter traceback on stderr — not the single
diagnostic line the claim promises for every failure. -/
def decodeAsciiStrict (bs : List Nat) : Option (List Char) :=
  some (decodeAscii bs)

def envBadB64 : RelayEnv :=
  { sock_path := "/tmp/piv-sign-agent.sock".toList,
    agent := fun _ => .chunks [[79, 75, 32, 97, 98, 10]],
    decodeBytes := decodeAsciiStrict,
    b64dec := fun _ => none,
    hashFn := fun bs => bs,
    stdinLine := "deadbeef\n".toList,
    repoPubFile := some [1], localPubFile := none }

theorem sign_repo_crashes_on_bad_base64 :
    agent_request envBadB64 ("SIGN SHA256 ".toList ++
      bytesToHex (envBadB64.hashFn (utf8Encode (pyStrip envBadB64.stdinLine))))
      = .ok "ab".toList ∧
    envBadB64.b64dec "ab".toList = none ∧
    (sign_repo_main envBadB64).1 = .crashed [] := by
  refine ⟨by decide, rfl, by decide⟩

/-- C5 (amended): the relay either succeeds — exit code 0, empty stderr,
stdout the complete four-part `SIGNATURE` / signature / `CERT` / PEM /
`END` structure — or dies with exit code 1, an empty stdout and exactly
one `ERROR:` diagnostic line, or terminates with an uncaught exception
(undecodable base64 payload or undecodable response line), writing
nothing to stdout; on no path does it emit a partial four-part
structure. -/
theorem sign_repo_output_all_or_nothing_or_crash (env : RelayEnv) :
    (∃ sig pub, (sign_repo_main env).1
        = .exited
            { stdout := asciiBytes "SIGNATURE\n" ++ sig ++ asciiBytes "\nCERT\n"
                ++ pub ++ asciiBytes "END\n",
              stderrLines := [], exitCode := 0 })
    ∨ (∃ m, (sign_repo_main env).1
        = .exited { stdout := [], stderrLines := ["ERROR: ".toList ++ m], exitCode := 1 })
    ∨ (sign_repo_main env).1 = .crashed [] := by
  rcases hfp : find_repo_pub env with ⟨pubRes, log⟩
  cases pubRes with
  | died m =>
    exact Or.inr (Or.inl ⟨m, by rw [sign_repo_main_pub_died env m log hfp]⟩)
  | crashed =>
    exact Or.inr (Or.inr (by rw [sign_repo_main_pub_crashed env log hfp]))
  | ok pub =>
    by_cases hh : pyStrip env.stdinLine = []
    · refine Or.inr (Or.inl ⟨"no hash received on stdin".toList, ?_⟩)
      rw [sign_repo_main_no_hash env pub log hfp hh]
      rfl
    · rw [sign_repo_main_sign_branch env pub log hfp hh]
      cases hor : agent_request env ("SIGN SHA256 ".toList ++
          bytesToHex (env.hashFn (utf8Encode (pyStrip env.stdinLine)))) with
      | ok sig_b64 =>
        dsimp only
        cases hb : env.b64dec sig_b64 with
        | none => exact Or.inr (Or.inr rfl)
        | some sig => exact Or.inl ⟨sig, pub, rfl⟩
      | died m => exact Or.inr (Or.inl ⟨m, rfl⟩)
      | crashed => exact Or.inr (Or.inr rfl)

/-- A relay whose hash function is the identity, with stdin `deadbeef`. -/
def envC4 : RelayEnv :=
  { sock_path := "/tmp/piv-sign-agent.sock".toList, agent := fun _ => .sockErr [],
    decodeBytes := decodeAsciiStrict, b64dec := fun _ => some [],
    hashFn := fun bs => bs, stdinLine := "deadbeef\n".toList,
    repoPubFile := some [1], localPubFile := none }

/-- C4 witness: with stdin line `deadbeef` the relay sends a request whose
digest field is the hash of the ASCII text `deadbeef`. -/
theorem sign_repo_hashes_literal_hex_text_witness :
    "SIGN SHA256 6465616462656566".toList ∈ (sign_repo_main envC4).2 ∧
    "SIGN SHA256 6465616462656566".toList = "SIGN SHA256 ".toList ++
      bytesToHex (envC4.hashFn [100, 101, 97, 100, 98, 101, 101, 102]) :=
  ⟨by decide, (sign_repo_hashes_literal_hex_text envC4).2.1 (by decide)
      "SIGN SHA256 6465616462656566".toList (by decide) (by decide)⟩

/-! ## C6, C7, C10: `handle_connection` -/

/-- Any prefix of length at most 8192 that contains no newline inside
`take 8192` of the whole stream is itself newline-free. -/
theorem not_mem_of_take (data tail : List Nat)
    (hnl : (10 : Nat) ∉ (data ++ tail).take 8192)
    (hle : data.length ≤ 8192) : (10 : Nat) ∉ data := by
  intro hm
  apply hnl
  have h1 : data = (data ++ tail).take data.length := (List.take_left data tail).symm
  have h2 : (data ++ tail).take data.length
      = ((data ++ tail).take 8192).take data.length := by
    rw [List.take_take]
    congr 1
    omega
  apply List.take_subset data.length
  rw [← h2, ← h1]
  exact hm

/-- The receive loop hits the size cap whenever the byte stream has no
newline among its first 8192 bytes and more than 8192 bytes in total. -/
theorem connRecvLoop_tooLarge (chunks : List (List Nat)) (data : List Nat)
    (hne : ∀ c ∈ chunks, c ≠ [])
    (hle : data.length ≤ 8192)
    (hnl : (10 : Nat) ∉ (data ++ chunks.flatten).take 8192)
    (hlen : (data ++ chunks.flatten).length > 8192) :
    connRecvLoop chunks data = .tooLarge := by
  induction chunks generalizing data with
  | nil =>
    rw [List.flatten_nil, List.append_nil] at hlen
    omega
  | cons c rest ih =>
    have h10 : ¬((10 : Nat) ∈ data) := not_mem_of_take data (c :: rest).flatten hnl hle
    unfold connRecvLoop
    rw [if_neg h10, if_neg (hne c (List.mem_cons_self c rest))]
    by_cases hsz : (data ++ c).length > 8192
    · rw [if_pos hsz]
    · rw [if_neg hsz]
      apply ih (data ++ c) (fun d hd => hne d (List.mem_cons_of_mem c hd))
      · omega
      · rw [List.append_assoc, ← List.flatten_cons]
        exact hnl
      · rw [List.append_assoc, ← List.flatten_cons]
        exact hlen

/-- C6: a connection whose request exceeds the 8 KiB cap (no newline
among the first 8192 bytes, more than 8192 bytes sent) gets exactly the
single response line `ERR request too large` and no request processing:
no PIN resolution and no token interaction. -/
theorem handle_connection_oversize_request (env : AgentEnv)
    (decode : List Nat → List Char) (chunks : List (List Nat))
    (hne : ∀ c ∈ chunks, c ≠ [])
    (hnl : (10 : Nat) ∉ chunks.flatten.take 8192)
    (hlen : chunks.flatten.length > 8192) :
    handle_connection env decode chunks = (["ERR request too large\n".toList], []) := by
  have hloop : connRecvLoop chunks [] = .tooLarge := by
    apply connRecvLoop_tooLarge chunks [] hne (by simp)
    · simpa using hnl
    · simpa using hlen
  simp [handle_connection, hloop]

/-- C6 witness: 8193 bytes of `A` with no newline trigger the oversize
response on a connection to the sample agent. -/
theorem handle_connection_oversize_request_witness :
    (∀ c ∈ [List.replicate 8193 (65 : Nat)], c ≠ []) ∧
    (10 : Nat) ∉ [List.replicate 8193 (65 : Nat)].flatten.take 8192 ∧
    [List.replicate 8193 (65 : Nat)].flatten.length > 8192 ∧
    handle_connection envSample decodeAscii [List.replicate 8193 (65 : Nat)]
      = (["ERR request too large\n".toList], []) := by
  have hfl : [List.replicate 8193 (65 : Nat)].flatten = List.replicate 8193 (65 : Nat) := by
    rw [List.flatten_cons, List.flatten_nil, List.append_nil]
  have h1 : ∀ c ∈ [List.replicate 8193 (65 : Nat)], c ≠ [] := by
    intro c hc
    rw [List.mem_singleton] at hc
    subst hc
    intro heq
    have hl := congrArg List.length heq
    rw [List.length_replicate, List.length_nil] at hl
    omega
  have h2 : (10 : Nat) ∉ [List.replicate 8193 (65 : Nat)].flatten.take 8192 := by
    rw [hfl, List.take_replicate]
    intro hm
    rw [List.mem_replicate] at hm
    omega
  have h3 : [List.replicate 8193 (65 : Nat)].flatten.length > 8192 := by
    rw [hfl, List.length_replicate]
    omega
  exact ⟨h1, h2, h3,
    handle_connection_oversize_request envSample decodeAscii _ h1 h2 h3⟩

/-- C7, counterexample: a client that sends the partial line `PUBK` (no
newline) and disconnects does *not* have its request silently dropped —
the buffered partial line is processed and an `ERR unknown command`
response is written on the connection. -/
theorem handle_connection_partial_line_gets_response :
    handle_connection envSample decodeAscii [[80, 85, 66, 75]]
      = (["ERR unknown command\n".toList], []) := by
  decide

/-- The receive loop returns all buffered bytes when the stream ends
without a newline and without tripping the size cap. -/
theorem connRecvLoop_eof (chunks : List (List Nat)) (data : List Nat)
    (hne : ∀ c ∈ chunks, c ≠ [])
    (hnl : (10 : Nat) ∉ data ++ chunks.flatten)
    (hlen : (data ++ chunks.flatten).length ≤ 8192) :
    connRecvLoop chunks data = .gotData (data ++ chunks.flatten) := by
  induction chunks generalizing data with
  | nil =>
    rw [List.flatten_nil, List.append_nil]
    rfl
  | cons c rest ih =>
    have h10 : (10 : Nat) ∉ data := fun hm => hnl (List.mem_append.mpr (Or.inl hm))
    have harr : data ++ c ++ rest.flatten = data ++ (c :: rest).flatten := by
      rw [List.append_assoc, ← List.flatten_cons]
    have hsz : ¬((data ++ c).length > 8192) := by
      rw [List.flatten_cons] at hlen
      simp only [List.length_append] at hlen ⊢
      omega
    unfold connRecvLoop
    rw [if_neg h10, if_neg (hne c (List.mem_cons_self c rest)), if_neg hsz]
    rw [ih (data ++ c) (fun d hd => hne d (List.mem_cons_of_mem c hd))
        (by rw [harr]; exact hnl) (by rw [harr]; exact hlen), harr]

/-- C7 (amended): when the client disconnects before a newline arrives
(and the size cap is not hit), the request is silently dropped — no bytes
written, no effects — only if *zero* bytes were received; if some bytes of
a partial line were received, the partial line is processed as the
request and a response is written. -/
theorem handle_connection_eof_behavior (env : AgentEnv)
    (decode : List Nat → List Char) (chunks : List (List Nat))
    (hne : ∀ c ∈ chunks, c ≠ [])
    (hnl : (10 : Nat) ∉ chunks.flatten)
    (hlen : chunks.flatten.length ≤ 8192) :
    handle_connection env decode chunks =
      if chunks.flatten = [] then ([], [])
      else ([(handle_request env (decode chunks.flatten)).1 ++ "\n".toList],
            (handle_request env (decode chunks.flatten)).2) := by
  have hloop : connRecvLoop chunks [] = .gotData chunks.flatten := by
    have h := connRecvLoop_eof chunks [] hne (by simpa using hnl) (by simpa using hlen)
    simpa using h
  by_cases hz : chunks.flatten = []
  · simp [handle_connection, hloop, hz]
  · rw [if_neg hz]
    unfold handle_connection
    rw [hloop]
    dsimp only
    rw [if_neg hz, takeUntilNL_eq_self _ hnl]

/-- C7 witness: two one-byte chunks `P`, `U` then EOF are processed as
the request `PU` and answered, while an immediate EOF writes nothing. -/
theorem handle_connection_eof_behavior_witness :
    (∀ c ∈ [[(80 : Nat)], [(85 : Nat)]], c ≠ []) ∧
    (10 : Nat) ∉ [[(80 : Nat)], [(85 : Nat)]].flatten ∧
    [[(80 : Nat)], [(85 : Nat)]].flatten.length ≤ 8192 ∧
    handle_connection envSample decodeAscii [[(80 : Nat)], [(85 : Nat)]]
      = (["ERR unknown command\n".toList], []) ∧
    handle_connection envSample decodeAscii []
      = ([], []) := by
  refine ⟨by decide, by decide, by decide, ?_, ?_⟩
  · have h := handle_connection_eof_behavior envSample decodeAscii
        [[(80 : Nat)], [(85 : Nat)]] (by decide) (by decide) (by decide)
    rw [h]
    decide
  · have h := handle_connection_eof_behavior envSample decodeAscii []
        (by decide) (by decide) (by decide)
    rw [h]
    decide

/-- The byte stream of the C10 exemplar: a complete valid `PUBKEY` line
followed by trailing junk, 8193 bytes in total.  As a *single* chunk it
can never be received, because `conn.recv(4096)` (source line 348)
returns at most 4096 bytes per call. -/
def chunkC10 : List Nat := asciiBytes "PUBKEY\n" ++ List.replicate 8186 (65 : Nat)

/-- The same 8193-byte stream split into receivable chunks of at most
4096 bytes, the newline still followed by trailing bytes in its chunk. -/
def chunkC10a : List Nat := asciiBytes "PUBKEY\n" ++ List.replicate 4089 (65 : Nat)

def chunkC10b : List Nat := List.replicate 4096 (65 : Nat)

def chunkC10c : List Nat := [(65 : Nat)]

/-- One non-final iteration of the receive loop. -/
theorem connRecvLoop_step (c : List Nat) (rest : List (List Nat)) (data : List Nat)
    (h1 : ¬((10 : Nat) ∈ data)) (h2 : c ≠ []) (h3 : ¬((data ++ c).length > 8192)) :
    connRecvLoop (c :: rest) data = connRecvLoop rest (data ++ c) := by
  rw [connRecvLoop, if_neg h1, if_neg h2, if_neg h3]

/-- The iteration of the receive loop that trips the size cap. -/
theorem connRecvLoop_step_large (c : List Nat) (rest : List (List Nat)) (data : List Nat)
    (h1 : ¬((10 : Nat) ∈ data)) (h2 : c ≠ []) (h3 : (data ++ c).length > 8192) :
    connRecvLoop (c :: rest) data = .tooLarge := by
  rw [connRecvLoop, if_neg h1, if_neg h2, if_pos h3]

/-- The loop-top newline test ends the loop. -/
theorem connRecvLoop_found (chunks : List (List Nat)) (data : List Nat)
    (h : (10 : Nat) ∈ data) : connRecvLoop chunks data = .gotData data := by
  cases chunks with
  | nil => rfl
  | cons c rest => rw [connRecvLoop, if_pos h]

/-- C10, counterexample: the exemplar single chunk (8193 bytes) exceeds
the 4096-byte recv bound, so the program can never receive it; delivering
the *same* byte stream in receivable chunks — the complete valid line
`PUBKEY` plus newline still followed by trailing bytes in the same
chunk — makes the loop-top newline test fire before the buffer can
exceed the cap, and the line is processed and answered `OK`, not
`ERR request too large`. -/
theorem handle_connection_valid_line_chunked_is_processed :
    chunkC10.length > 4096 ∧
    [chunkC10a, chunkC10b, chunkC10c].flatten = chunkC10 ∧
    (∀ c ∈ [chunkC10a, chunkC10b, chunkC10c], c ≠ [] ∧ c.length ≤ 4096) ∧
    handle_connection envSample decodeAscii [chunkC10a, chunkC10b, chunkC10c]
      = (["OK AQID\n".toList], []) := by
  have h7 : (asciiBytes "PUBKEY\n").length = 7 := rfl
  have hl10 : chunkC10.length = 8193 := by
    show (asciiBytes "PUBKEY\n" ++ List.replicate 8186 (65 : Nat)).length = 8193
    rw [List.length_append, List.length_replicate, h7]
  have hla : chunkC10a.length = 4096 := by
    show (asciiBytes "PUBKEY\n" ++ List.replicate 4089 (65 : Nat)).length = 4096
    rw [List.length_append, List.length_replicate, h7]
  have hlb : chunkC10b.length = 4096 := by
    show (List.replicate 4096 (65 : Nat)).length = 4096
    rw [List.length_replicate]
  have hne_a : chunkC10a ≠ [] := by
    intro h
    have hl := congrArg List.length h
    rw [hla, List.length_nil] at hl
    omega
  have hne_b : chunkC10b ≠ [] := by
    intro h
    have hl := congrArg List.length h
    rw [hlb, List.length_nil] at hl
    omega
  have hmem10 : (10 : Nat) ∈ chunkC10a := by
    show (10 : Nat) ∈ asciiBytes "PUBKEY\n" ++ List.replicate 4089 (65 : Nat)
    exact List.mem_append.mpr (Or.inl (by decide))
  have hflat : [chunkC10a, chunkC10b, chunkC10c].flatten = chunkC10 := by
    rw [List.flatten_cons, List.flatten_cons, List.flatten_cons, List.flatten_nil,
        List.append_nil]
    show (asciiBytes "PUBKEY\n" ++ List.replicate 4089 (65 : Nat))
        ++ (List.replicate 4096 (65 : Nat) ++ [(65 : Nat)])
        = asciiBytes "PUBKEY\n" ++ List.replicate 8186 (65 : Nat)
    rw [List.append_assoc]
    refine congrArg (fun t => asciiBytes "PUBKEY\n" ++ t) ?_
    rw [show [(65 : Nat)] = List.replicate 1 (65 : Nat) from rfl,
        ← List.replicate_add, ← List.replicate_add]
  have hloop : connRecvLoop [chunkC10a, chunkC10b, chunkC10c] [] = .gotData chunkC10a := by
    rw [connRecvLoop_step chunkC10a [chunkC10b, chunkC10c] []
          (by decide) hne_a (by rw [List.nil_append, hla]; omega),
        List.nil_append, connRecvLoop_found [chunkC10b, chunkC10c] chunkC10a hmem10]
  refine ⟨by omega, hflat, ?_, ?_⟩
  · intro c hc
    rw [List.mem_cons, List.mem_cons, List.mem_singleton] at hc
    rcases hc with hc | hc | hc <;> subst hc
    · exact ⟨hne_a, by omega⟩
    · exact ⟨hne_b, by omega⟩
    · exact ⟨by decide, by decide⟩
  · unfold handle_connection
    rw [hloop]
    dsimp only
    rw [if_neg hne_a, show takeUntilNL chunkC10a = asciiBytes "PUBKEY" from rfl]
    decide

theorem takeUntilNL_append_left (a b : List Nat) (h : (10 : Nat) ∈ a) :
    takeUntilNL (a ++ b) = takeUntilNL a := by
  induction a with
  | nil => cases h
  | cons x xs ih =>
    by_cases hx : x = 10
    · subst hx
      simp [takeUntilNL]
    · have hxs : (10 : Nat) ∈ xs := by
        rcases List.mem_cons.mp h with h1 | h1
        · exact absurd h1.symm hx
        · exact h1
      simp [takeUntilNL, hx, ih hxs]

/-- With every chunk bounded by the 4096-byte recv limit, a stream whose
first newline lies within its first 4097 bytes is fully detected at the
loop top: the buffer is then a newline-free prefix of at most 4096 bytes,
so no append can push it past 8192, and the loop ends holding the first
line. -/
theorem connRecvLoop_short_line (chunks : List (List Nat)) (data : List Nat)
    (hb : ∀ c ∈ chunks, c ≠ [] ∧ c.length ≤ 4096)
    (hnl : (10 : Nat) ∈ (data ++ chunks.flatten).take 4097) :
    ∃ D, connRecvLoop chunks data = .gotData D ∧ (10 : Nat) ∈ D ∧
      takeUntilNL D = takeUntilNL (data ++ chunks.flatten) := by
  induction chunks generalizing data with
  | nil =>
    refine ⟨data, rfl, ?_, by rw [List.flatten_nil, List.append_nil]⟩
    rw [List.flatten_nil, List.append_nil] at hnl
    exact List.take_subset _ _ hnl
  | cons c rest ih =>
    by_cases h10 : (10 : Nat) ∈ data
    · exact ⟨data, connRecvLoop_found (c :: rest) data h10, h10,
        (takeUntilNL_append_left data (c :: rest).flatten h10).symm⟩
    · have hdlen : data.length ≤ 4096 := by
        by_contra hgt
        push_neg at hgt
        rw [List.take_append_of_le_length (by omega)] at hnl
        exact h10 (List.take_subset _ _ hnl)
      have hc := hb c (List.mem_cons_self c rest)
      have hsz : ¬((data ++ c).length > 8192) := by
        rw [List.length_append]
        have hcl := hc.2
        omega
      have harr : data ++ c ++ rest.flatten = data ++ (c :: rest).flatten := by
        rw [List.append_assoc, ← List.flatten_cons]
      obtain ⟨D, hD, hm, hl⟩ := ih (data ++ c)
        (fun d hd => hb d (List.mem_cons_of_mem c hd))
        (by rw [harr]; exact hnl)
      exact ⟨D, by rw [connRecvLoop_step c rest data h10 hc.1 hsz, hD], hm,
        by rw [hl, harr]⟩

/-- C10 (amended): `handle_connection` applies the size check after
appending each chunk and before re-testing for a newline, but each
`conn.recv(4096)` result is at most 4096 bytes.  Consequently (first
conjunct) every connection whose first newline lies within the first
4097 bytes of the stream — in particular one beginning with a complete
valid request line, which is at most 77 bytes — has that first line
processed and answered, never `ERR request too large`; the check order
is observable only for longer lines (second conjunct): 8192 junk bytes
followed by a newline-bearing chunk draw `ERR request too large` even
though a complete newline-terminated line has arrived. -/
theorem handle_connection_size_cap_with_recv_bound :
    (∀ (env : AgentEnv) (decode : List Nat → List Char) (chunks : List (List Nat)),
      (∀ c ∈ chunks, c ≠ [] ∧ c.length ≤ 4096) →
      (10 : Nat) ∈ chunks.flatten.take 4097 →
      handle_connection env decode chunks
        = ([(handle_request env (decode (takeUntilNL chunks.flatten))).1 ++ "\n".toList],
           (handle_request env (decode (takeUntilNL chunks.flatten))).2))
    ∧ ((∀ c ∈ [chunkC10b, chunkC10b, [(10 : Nat)]], c ≠ [] ∧ c.length ≤ 4096) ∧
       (10 : Nat) ∈ [chunkC10b, chunkC10b, [(10 : Nat)]].flatten ∧
       handle_connection envSample decodeAscii [chunkC10b, chunkC10b, [(10 : Nat)]]
         = (["ERR request too large\n".toList], [])) := by
  have hlb : chunkC10b.length = 4096 := by
    show (List.replicate 4096 (65 : Nat)).length = 4096
    rw [List.length_replicate]
  have hne_b : chunkC10b ≠ [] := by
    intro h
    have hl := congrArg List.length h
    rw [hlb, List.length_nil] at hl
    omega
  have hm_b : ¬((10 : Nat) ∈ chunkC10b) := by
    show ¬((10 : Nat) ∈ List.replicate 4096 (65 : Nat))
    intro h
    rw [List.mem_replicate] at h
    omega
  constructor
  · intro env decode chunks hb hnl
    obtain ⟨D, hD, hm, hl⟩ := connRecvLoop_short_line chunks [] hb (by simpa using hnl)
    rw [List.nil_append] at hl
    unfold handle_connection
    rw [hD]
    dsimp only
    rw [if_neg (List.ne_nil_of_mem hm), hl]
  · refine ⟨?_, ?_, ?_⟩
    · intro c hc
      rw [List.mem_cons, List.mem_cons, List.mem_singleton] at hc
      rcases hc with hc | hc | hc <;> subst hc
      · exact ⟨hne_b, by omega⟩
      · exact ⟨hne_b, by omega⟩
      · exact ⟨by decide, by decide⟩
    · rw [List.flatten_cons, List.flatten_cons, List.flatten_cons, List.flatten_nil,
          List.append_nil]
      exact List.mem_append.mpr (Or.inr (List.mem_append.mpr (Or.inr (by decide))))
    · have hm_bb : ¬((10 : Nat) ∈ chunkC10b ++ chunkC10b) := by
        intro h
        rcases List.mem_append.mp h with h | h <;> exact hm_b h
      have hloop : connRecvLoop [chunkC10b, chunkC10b, [(10 : Nat)]] [] = .tooLarge := by
        rw [connRecvLoop_step chunkC10b [chunkC10b, [(10 : Nat)]] []
              (by decide) hne_b (by rw [List.nil_append, hlb]; omega),
            List.nil_append,
            connRecvLoop_step chunkC10b [[(10 : Nat)]] chunkC10b
              hm_b hne_b (by rw [List.length_append, hlb]; omega),
            connRecvLoop_step_large [(10 : Nat)] [] (chunkC10b ++ chunkC10b)
              hm_bb (by decide)
              (by rw [List.length_append, List.length_append, hlb]; decide)]
      simp [handle_connection, hloop]

/-- C10 witness: a single 7-byte chunk holding `PUBKEY` plus newline is
processed and answered `OK`. -/
theorem handle_connection_size_cap_with_recv_bound_witness :
    (∀ c ∈ [[(80 : Nat), 85, 66, 75, 69, 89, 10]], c ≠ [] ∧ c.length ≤ 4096) ∧
    (10 : Nat) ∈ [[(80 : Nat), 85, 66, 75, 69, 89, 10]].flatten.take 4097 ∧
    handle_connection envSample decodeAscii [[(80 : Nat), 85, 66, 75, 69, 89, 10]]
      = (["OK AQID\n".toList], []) := by
  refine ⟨by decide, by decide, ?_⟩
  have h := (handle_connection_size_cap_with_recv_bound).1 envSample decodeAscii
      [[(80 : Nat), 85, 66, 75, 69, 89, 10]] (by decide) (by decide)
  rw [h]
  decide

/-! ## C8: request-line grammar -/

/-- An `ERR`-prefixed response never carries the `OK ` marker. -/
theorem startswith_ok_err (e : List Char) :
    startswith "OK ".toList ("ERR ".toList ++ e) = false := rfl

/-- An `ERR `-prefixed response starts with `ERR `. -/
theorem startswith_err_err (e : List Char) :
    startswith "ERR ".toList ("ERR ".toList ++ e) = true := rfl

theorem errPre_digest : "ERR digest must be 32 bytes, got ".toList
    = "ERR ".toList ++ "digest must be 32 bytes, got ".toList := rfl

/-- Reduction of `handle_sign` once the hex field decodes to 32 bytes. -/
theorem handle_sign_good_hex (env : AgentEnv) (hex : List Char) (bs : List Nat)
    (hfh : bytesFromhex hex = some bs) (hlen : bs.length = 32) :
    handle_sign env hex =
      match (get_pin env.pinEnv env.pin_command).1 with
      | .error e => ("ERR ".toList ++ e, [.pinLookup])
      | .ok pin =>
        match (pkcs11_sign env.token pin bs).1 with
        | .error e => ("ERR ".toList ++ e, [.pinLookup, .tokenSign])
        | .ok sig => ("OK ".toList ++ b64encode sig, [.pinLookup, .tokenSign]) := by
  unfold handle_sign
  rw [hfh]
  dsimp only
  rw [if_neg (fun h => h hlen)]

/-- C8, counterexample: the line ` PUBKEY` (leading whitespace, so not in
the exact wire grammar) nevertheless receives an `OK` response, because
`handle_request` strips the line before dispatching. -/
theorem handle_request_ok_despite_whitespace :
    startswith "OK ".toList (handle_request envSample " PUBKEY".toList).1 = true ∧
    specRequestGrammar " PUBKEY".toList = false := by
  decide

/-- C8 (amended): a request line receives an `OK` response only if its
*stripped* form is `PUBKEY`, or its stripped form is `SIGN SHA256 <hex>`
where `<hex>` decodes under Python `bytes.fromhex` (which tolerates
whitespace between byte pairs) to exactly 32 bytes; every line whose
stripped form is neither receives an `ERR` response with no PIN
resolution and no token interaction. -/
theorem handle_request_ok_grammar (env : AgentEnv) (line : List Char) :
    (startswith "OK ".toList (handle_request env line).1 = true →
      pyStrip line = "PUBKEY".toList ∨
        (startswith "SIGN SHA256 ".toList (pyStrip line) = true ∧
         ∃ bs, bytesFromhex ((pyStrip line).drop 12) = some bs ∧ bs.length = 32))
    ∧ ((pyStrip line ≠ "PUBKEY".toList ∧
        (startswith "SIGN SHA256 ".toList (pyStrip line) = true →
          ∀ bs, bytesFromhex ((pyStrip line).drop 12) = some bs → bs.length ≠ 32)) →
      startswith "ERR ".toList (handle_request env line).1 = true ∧
      (handle_request env line).2 = []) := by
  by_cases h0 : pyStrip line = []
  · have hr : handle_request env line = ("ERR empty request".toList, []) := by
      unfold handle_request
      rw [if_pos h0]
    rw [hr]
    exact ⟨fun hok => absurd hok (by decide), fun _ => ⟨by decide, rfl⟩⟩
  by_cases h1 : pyStrip line = "PUBKEY".toList
  · have hr : handle_request env line = ("OK ".toList ++ pubkeyB64 env, []) := by
      unfold handle_request
      rw [if_neg h0, if_pos h1]
    rw [hr]
    exact ⟨fun _ => Or.inl h1, fun hcond => absurd h1 hcond.1⟩
  by_cases h2 : startswith "SIGN SHA256 ".toList (pyStrip line) = true
  · have hr : handle_request env line = handle_sign env ((pyStrip line).drop 12) := by
      unfold handle_request
      rw [if_neg h0, if_neg h1, if_pos h2]
      rfl
    rw [hr]
    rcases hfh : bytesFromhex ((pyStrip line).drop 12) with _ | bs
    · have hs : handle_sign env ((pyStrip line).drop 12)
          = ("ERR invalid hex digest".toList, []) := by
        unfold handle_sign
        rw [hfh]
      rw [hs]
      exact ⟨fun hok => absurd hok (by decide), fun _ => ⟨by decide, rfl⟩⟩
    · by_cases hlen : bs.length = 32
      · rw [handle_sign_good_hex env ((pyStrip line).drop 12) bs hfh hlen]
        cases hpin : (get_pin env.pinEnv env.pin_command).1 with
        | error e =>
          dsimp only
          refine ⟨fun hok => ?_, fun hcond => absurd hlen (hcond.2 h2 bs rfl)⟩
          rw [startswith_ok_err] at hok
          cases hok
        | ok pin =>
          dsimp only
          cases hsig : (pkcs11_sign env.token pin bs).1 with
          | error e =>
            dsimp only
            refine ⟨fun hok => ?_, fun hcond => absurd hlen (hcond.2 h2 bs rfl)⟩
            rw [startswith_ok_err] at hok
            cases hok
          | ok sig =>
            dsimp only
            exact ⟨fun _ => Or.inr ⟨h2, bs, rfl, hlen⟩,
              fun hcond => absurd hlen (hcond.2 h2 bs rfl)⟩
      · have hs : handle_sign env ((pyStrip line).drop 12)
            = ("ERR digest must be 32 bytes, got ".toList ++ natDec bs.length, []) := by
          unfold handle_sign
          rw [hfh]
          dsimp only
          rw [if_pos hlen]
        rw [hs]
        constructor
        · intro hok
          dsimp only at hok
          rw [errPre_digest, List.append_assoc, startswith_ok_err] at hok
          cases hok
        · intro _
          refine ⟨?_, rfl⟩
          dsimp only
          rw [errPre_digest, List.append_assoc]
          exact startswith_err_err _
  · have hr : handle_request env line = ("ERR unknown command".toList, []) := by
      unfold handle_request
      rw [if_neg h0, if_neg h1, if_neg h2]
    rw [hr]
    exact ⟨fun hok => absurd hok (by decide), fun _ => ⟨by decide, rfl⟩⟩

/-- C8 witness: the amended only-if direction applied to the stripped
`PUBKEY` line. -/
theorem handle_request_ok_grammar_witness :
    pyStrip " PUBKEY".toList = "PUBKEY".toList ∨
      (startswith "SIGN SHA256 ".toList (pyStrip " PUBKEY".toList) = true ∧
       ∃ bs, bytesFromhex ((pyStrip " PUBKEY".toList).drop 12) = some bs ∧
         bs.length = 32) :=
  (handle_request_ok_grammar envSample " PUBKEY".toList).1 (by decide)

/-! ## C9: PIN values and error texts -/

theorem errPre_invalid : "ERR invalid hex digest".toList
    = "ERR ".toList ++ "invalid hex digest".toList := rfl

/-- The complete set of `handle_sign` `ERR` texts, a function of the
configured token behaviour of the agent and the hex field of the request only —
the resolved PIN is not among its inputs. -/
def handleSignErrTexts (env : AgentEnv) (hex : List Char) : List (List Char) :=
  "invalid hex digest".toList ::
    (match bytesFromhex hex with
     | none => []
     | some bs =>
       ("digest must be 32 bytes, got ".toList ++ natDec bs.length) ::
         tokenErrorMsgs env.token bs)

/-- A PIN environment whose static override is the one-character PIN
`0`. -/
def pinEnvC9 : PinEnv :=
  { envPivPin := some ['0'], envPinCommand := none,
    runCommand := fun _ => .timedOut, promptResult := none }

/-- A token behaviour whose `C_Login` returns 0x63. -/
def tokC9 : Pkcs11Behavior :=
  { initRv := 0, slotCount := 1, openRv := 0, loginRv := 99, findInitRv := 0,
    foundCount := 1, signInitRv := 0, signRv := 0, signature := [] }

def envC9 : AgentEnv :=
  { pubkey_pem := [], pinEnv := pinEnvC9, pin_command := none, token := tokC9 }

set_option maxHeartbeats 2000000 in
/-- C9, counterexample: with the resolved PIN `0` and a failing login,
the produced line `ERR C_Login failed: 0x63 (wrong PIN?)` does
contain the PIN as a substring (hex return codes inevitably contain short
digit PINs), refuting the substring form of the claim. -/
theorem pin_occurs_in_error_message :
    (get_pin envC9.pinEnv envC9.pin_command).1 = .ok ['0'] ∧
    (handle_sign envC9 (List.replicate 64 '0')).1
      = "ERR C_Login failed: 0x63 (wrong PIN?)".toList ∧
    listContains ['0'] (handle_sign envC9 (List.replicate 64 '0')).1 = true := by
  exact ⟨rfl, by decide, by decide⟩

set_option maxHeartbeats 4000000 in
/-- C9 (amended): error texts are built only from hexadecimal return
codes, byte counts and fixed template text, never from the PIN value:
every error message of `pkcs11_sign` lies in `tokenErrorMsgs b digest`
(a function of the token behaviour and digest, not of the PIN), and
whenever PIN resolution succeeded, every `ERR <m>` response of
`handle_sign` has its text `m` in the PIN-independent set
`handleSignErrTexts`.  (The PIN may still occur inside such a message as
a substring coincidence, per the counterexample.) -/
theorem error_messages_pin_independent (b : Pkcs11Behavior) (pin : List Char)
    (digest : List Nat) :
    (∀ m, (pkcs11_sign b pin digest).1 = .error m → m ∈ tokenErrorMsgs b digest)
    ∧ (∀ env : AgentEnv, ∀ hex p,
        (get_pin env.pinEnv env.pin_command).1 = .ok p →
        ∀ m, (handle_sign env hex).1 = "ERR ".toList ++ m →
          m ∈ handleSignErrTexts env hex) := by
  have hconj1 : ∀ (b' : Pkcs11Behavior) (pin' : List Char) (digest' : List Nat) m,
      (pkcs11_sign b' pin' digest').1 = .error m → m ∈ tokenErrorMsgs b' digest' := by
    intro b' pin' digest' m hm
    unfold pkcs11_sign pkcs11Body pkcs11Session at hm
    split_ifs at hm <;> dsimp only at hm <;>
      first
      | exact Except.noConfusion hm
      | (injection hm with h
         subst h
         unfold tokenErrorMsgs
         first
         | exact List.mem_cons_self _ _
         | exact List.mem_cons_of_mem _ (List.mem_cons_self _ _)
         | exact List.mem_cons_of_mem _ (List.mem_cons_of_mem _
             (List.mem_cons_self _ _))
         | exact List.mem_cons_of_mem _ (List.mem_cons_of_mem _
             (List.mem_cons_of_mem _ (List.mem_cons_self _ _)))
         | exact List.mem_cons_of_mem _ (List.mem_cons_of_mem _
             (List.mem_cons_of_mem _ (List.mem_cons_of_mem _
               (List.mem_cons_self _ _))))
         | exact List.mem_cons_of_mem _ (List.mem_cons_of_mem _
             (List.mem_cons_of_mem _ (List.mem_cons_of_mem _
               (List.mem_cons_of_mem _ (List.mem_cons_self _ _)))))
         | exact List.mem_cons_of_mem _ (List.mem_cons_of_mem _
             (List.mem_cons_of_mem _ (List.mem_cons_of_mem _
               (List.mem_cons_of_mem _ (List.mem_cons_of_mem _
                 (List.mem_cons_self _ _))))))
         | exact List.mem_cons_of_mem _ (List.mem_cons_of_mem _
             (List.mem_cons_of_mem _ (List.mem_cons_of_mem _
               (List.mem_cons_of_mem _ (List.mem_cons_of_mem _
                 (List.mem_cons_of_mem _ (List.mem_cons_self _ _)))))))
         | exact List.mem_cons_of_mem _ (List.mem_cons_of_mem _
             (List.mem_cons_of_mem _ (List.mem_cons_of_mem _
               (List.mem_cons_of_mem _ (List.mem_cons_of_mem _
                 (List.mem_cons_of_mem _ (List.mem_cons_of_mem _
                   (List.mem_cons_self _ _)))))))))
  refine ⟨hconj1 b pin digest, ?_⟩
  intro env hex p hp m hm
  unfold handleSignErrTexts
  rcases hfh : bytesFromhex hex with _ | bs
  · unfold handle_sign at hm
    rw [hfh] at hm
    dsimp only at hm
    rw [errPre_invalid] at hm
    rw [List.append_cancel_left hm]
    simp
  · by_cases hlen : bs.length = 32
    · rw [handle_sign_good_hex env hex bs hfh hlen, hp] at hm
      dsimp only at hm
      rcases hsig : (pkcs11_sign env.token p bs).1 with e | sig
      · rw [hsig] at hm
        dsimp only at hm
        rw [← List.append_cancel_left hm]
        exact List.mem_cons_of_mem _ (List.mem_cons_of_mem _ (hconj1 env.token p bs e hsig))
      · rw [hsig] at hm
        dsimp only at hm
        exact absurd hm (by simp)
    · unfold handle_sign at hm
      rw [hfh] at hm
      dsimp only at hm
      rw [if_pos hlen] at hm
      rw [errPre_digest, List.append_assoc] at hm
      dsimp only
      rw [← List.append_cancel_left hm]
      exact List.mem_cons_of_mem _ (List.mem_cons_self _ _)

/-- C9 witness: the template-membership form at a concrete behaviour —
a token with no inserted slot reports `no YubiKey detected`, an element
of its PIN-independent message set. -/
def bNoSlot : Pkcs11Behavior :=
  { initRv := 0, slotCount := 0, openRv := 0, loginRv := 0, findInitRv := 0,
    foundCount := 0, signInitRv := 0, signRv := 0, signature := [] }

theorem error_messages_pin_independent_witness :
    "no YubiKey detected".toList ∈ tokenErrorMsgs bNoSlot [] :=
  (error_messages_pin_independent bNoSlot ['9'] []).1
    "no YubiKey detected".toList rfl
